import Mathlib

/-!
Shallow embedding of `src/app.py`, a single-file Flask application:

```python
from flask import Flask
from os import environ as _env  # source says: import os

app = Flask(__name__)

@app.route('/')
def hello():
    return "Hello, World! This is version 1.0!"

if __name__ == "__main__":
    # Get port from environment variable or default to 5000
    port = int(_env.get("PORT", 5000))
    app.run(debug=True, host='0.0.0.0', port=port)
```

The application registers a single route `'/'` with no explicit method
list, so Flask's defaults apply (GET, plus automatic HEAD and OPTIONS);
all other paths receive the framework's 404 default and other methods on
`/` receive the 405 default.  Startup reads the `PORT` environment
variable, applies Python's `int()` to it (defaulting to the integer
5000 when unset), and binds the server to the resolved port.
-/

namespace App

/-- HTTP methods relevant to Flask's routing defaults. -/
inductive Method where
  | GET
  | HEAD
  | OPTIONS
  | POST
  | PUT
  | DELETE
  | PATCH
  | TRACE
deriving DecidableEq, Repr

/-- An HTTP request as supplied by the framework to the dispatcher:
method, path, query parameters, headers and body. -/
structure Request where
  method : Method
  path : String
  query : List (String × String)
  headers : List (String × String)
  body : String
deriving DecidableEq, Repr

/-- An HTTP response: status code and body. -/
structure Response where
  status : Nat
  body : String
deriving DecidableEq, Repr

/-- The fixed string returned by the `hello` handler in `src/app.py`. -/
def helloBody : String := "Hello, World! This is version 1.0!"

/-- The view function `hello` from `src/app.py`: it ignores the request
entirely and returns the fixed greeting string. -/
def hello (_req : Request) : String := helloBody

/-- Flask's default 404 response body (werkzeug `NotFound` description,
rendered by the default error handler). -/
def flask404Body : String :=
  "<!doctype html>\n<html lang=en>\n<title>404 Not Found</title>\n<h1>Not Found</h1>\n<p>The requested URL was not found on the server. If you entered the URL manually please check your spelling and try again.</p>\n"

/-- Flask's default 405 response body (werkzeug `MethodNotAllowed`). -/
def flask405Body : String :=
  "<!doctype html>\n<html lang=en>\n<title>405 Method Not Allowed</title>\n<h1>Method Not Allowed</h1>\n<p>The method is not allowed for the requested URL.</p>\n"

/-- The framework-default response for an unknown path. -/
def notFoundResponse : Response := ⟨404, flask404Body⟩

/-- The framework-default response for a known path with a method outside
the route's allowed set. -/
def methodNotAllowedResponse : Response := ⟨405, flask405Body⟩

/-- Flask dispatch for the application's routing table, which contains the
single rule `'/' -> hello` with no explicit method list.  Flask therefore
allows GET, and automatically provides HEAD (running the GET handler and
discarding the body) and OPTIONS (the automatic default response); every
other method on `/` yields the 405 default, and every other path the 404
default. -/
def dispatch (req : Request) : Response :=
  if req.path = "/" then
    match req.method with
    | .GET => ⟨200, hello req⟩
    | .HEAD => ⟨200, ""⟩
    | .OPTIONS => ⟨200, ""⟩
    | _ => methodNotAllowedResponse
  else
    notFoundResponse

/-- ASCII whitespace characters stripped by Python's `int()` before
parsing (Python also strips some further Unicode spaces; the ASCII
subset is what the claims exercise). -/
def pyIsSpace (c : Char) : Bool :=
  c = ' ' || c = '\t' || c = '\n' || c = '\x0b' || c = '\x0c' || c = '\r'

/-- Strip leading and trailing whitespace, as `int()` does. -/
def pyStrip (cs : List Char) : List Char :=
  ((cs.dropWhile pyIsSpace).reverse.dropWhile pyIsSpace).reverse

/-- Decimal digit sequence accepted by Python's `int()` after the sign:
at least one digit, with single underscores allowed only between digits.
This function consumes the characters after the first digit, `acc`
holding the value parsed so far. -/
def pyDigitsAux : Nat → List Char → Option Nat
  | acc, [] => some acc
  | acc, '_' :: c :: rest =>
      if c.isDigit then pyDigitsAux (acc * 10 + (c.toNat - 48)) rest else none
  | _, ['_'] => none
  | acc, c :: rest =>
      if c.isDigit then pyDigitsAux (acc * 10 + (c.toNat - 48)) rest else none

/-- Parse a nonempty digit sequence (with interior underscores) as
Python's `int()` does; `none` on any malformed input. -/
def pyDigits : List Char → Option Nat
  | [] => none
  | c :: rest => if c.isDigit then pyDigitsAux (c.toNat - 48) rest else none

/-- Python's `int(s)` for a string argument: strip whitespace, accept an
optional sign, then a decimal digit sequence; raise `ValueError`
(modelled as `none`) otherwise. -/
def pyIntOfString (s : String) : Option Int :=
  match pyStrip s.data with
  | '+' :: rest => (pyDigits rest).map (fun n => (n : Int))
  | '-' :: rest => (pyDigits rest).map (fun n => -(n : Int))
  | cs => (pyDigits cs).map (fun n => (n : Int))

/-- The process environment, as a lookup list of variable bindings. -/
def Env := List (String × String)

/-- `os.environ.get key`: the first binding of `key`, if any. -/
def envGet (env : Env) (key : String) : Option String :=
  (List.find? (fun p => p.1 = key) env).map Prod.snd

/-- Line 12 of `src/app.py`: `port = int(os.environ.get("PORT", 5000))`.
When `PORT` is unset, `os.environ.get` returns the integer default 5000
and `int(5000) = 5000`; when set, `int` parses the string and an
unparseable value raises an uncaught `ValueError`, modelled as
`Except.error` carrying the offending string. -/
def resolvePort (env : Env) : Except String Int :=
  match envGet env "PORT" with
  | none => .ok 5000
  | some s =>
      match pyIntOfString s with
      | some n => .ok n
      | none => .error s

/-- The whole program state once the server is running: the resolved
port, fixed at startup. -/
structure ServerState where
  port : Int
deriving DecidableEq, Repr

/-- Outcome of running the `__main__` block: either startup failed before
`app.run` (uncaught `ValueError` from `int`), or the server is running
with the resolved port. -/
inductive StartupResult where
  | failed (badValue : String)
  | running (st : ServerState)
deriving DecidableEq, Repr

/-- Lines 12-13 of `src/app.py`: resolve the port, then call `app.run`
on it.  A parse failure on line 12 propagates before line 13 runs. -/
def startup (env : Env) : StartupResult :=
  match resolvePort env with
  | .error s => .failed s
  | .ok p => .running ⟨p⟩

/-- The sockets bound by a startup outcome: none when startup failed,
the single listening socket on the resolved port otherwise. -/
def boundPorts : StartupResult → List Int
  | .failed _ => []
  | .running st => [st.port]

/-- One step of the framework's accept/dispatch loop: handle one request
through `dispatch`.  The application code gives the handler no way to
touch the state, so the state is returned unchanged. -/
def serverStep (st : ServerState) (req : Request) : Response × ServerState :=
  (dispatch req, st)

/-- Run the server loop over a sequence of requests, threading the
state. -/
def runServer (st : ServerState) : List Request → ServerState
  | [] => st
  | r :: rs => runServer (serverStep st r).2 rs

/-- Invocation of the `hello` view through the framework, made explicit
about effects: it may in principle fail (`Except`) and return an updated
state, but in fact always succeeds with the fixed body and the state it
was given. -/
def handlerInvoke (st : ServerState) (req : Request) :
    Except String (String × ServerState) :=
  .ok (hello req, st)

/-- A usable TCP listening port number. -/
def validTcpPort (p : Int) : Prop := 0 < p ∧ p ≤ 65535

instance : DecidablePred validTcpPort := fun p =>
  inferInstanceAs (Decidable (0 < p ∧ p ≤ 65535))

end App

namespace App

/-- Helper: the server loop never changes the state, for any sequence of
requests. -/
theorem runServer_fixed (st : ServerState) :
    ∀ reqs : List Request, runServer st reqs = st
  | [] => rfl
  | _ :: rs => runServer_fixed st rs

/-- C1: every HTTP GET request to the root path `/` receives status 200
and a body equal exactly to "Hello, World! This is version 1.0!". -/
theorem root_get_ok (req : Request)
    (hm : req.method = .GET) (hp : req.path = "/") :
    (dispatch req).status = 200 ∧
      (dispatch req).body = "Hello, World! This is version 1.0!" := by
  simp [dispatch, hp, hm, hello, helloBody]

/-- Witness for C1 at a concrete GET request to `/`. -/
theorem root_get_ok_witness :
    (dispatch ⟨.GET, "/", [("q", "1")], [("X-Test", "y")], "payload"⟩).status = 200 ∧
      (dispatch ⟨.GET, "/", [("q", "1")], [("X-Test", "y")], "payload"⟩).body =
        "Hello, World! This is version 1.0!" :=
  root_get_ok ⟨.GET, "/", [("q", "1")], [("X-Test", "y")], "payload"⟩ rfl rfl

/-- C2: with `PORT` unset, port resolution yields 5000 and the server
starts bound to port 5000. -/
theorem default_port_5000 (env : Env) (h : envGet env "PORT" = none) :
    resolvePort env = .ok 5000 ∧ startup env = .running ⟨5000⟩ ∧
      boundPorts (startup env) = [5000] := by
  simp [startup, resolvePort, boundPorts, h]

/-- Witness for C2 at the empty environment. -/
theorem default_port_5000_witness :
    resolvePort [] = .ok 5000 ∧ startup [] = .running ⟨5000⟩ ∧
      boundPorts (startup []) = [5000] :=
  default_port_5000 [] rfl

/-- C3: when `PORT` is set to a string that `int()` parses to `n`, port
resolution yields `n` and the server binds to `n`. -/
theorem env_port_used (env : Env) (s : String) (n : Int)
    (hs : envGet env "PORT" = some s) (hn : pyIntOfString s = some n) :
    resolvePort env = .ok n ∧ startup env = .running ⟨n⟩ ∧
      boundPorts (startup env) = [n] := by
  simp [startup, resolvePort, boundPorts, hs, hn]

/-- Witness for C3 with `PORT="8080"`. -/
theorem env_port_used_witness :
    resolvePort [("PORT", "8080")] = .ok 8080 ∧
      startup [("PORT", "8080")] = .running ⟨8080⟩ ∧
      boundPorts (startup [("PORT", "8080")]) = [8080] :=
  env_port_used [("PORT", "8080")] "8080" 8080 rfl rfl

/-- C4: when `PORT` is set to a string `int()` rejects, startup fails
with the uncaught parse error before `app.run`, so no socket is bound. -/
theorem bad_port_fails_startup (env : Env) (s : String)
    (hs : envGet env "PORT" = some s) (hn : pyIntOfString s = none) :
    startup env = .failed s ∧ boundPorts (startup env) = [] := by
  simp [startup, resolvePort, boundPorts, hs, hn]

/-- Witness for C4 with `PORT="abc"`. -/
theorem bad_port_fails_startup_witness :
    startup [("PORT", "abc")] = .failed "abc" ∧
      boundPorts (startup [("PORT", "abc")]) = [] :=
  bad_port_fails_startup [("PORT", "abc")] "abc" rfl rfl

/-- C5: a request to any path other than `/` gets the framework's 404
default, whose body is not the root handler's body. -/
theorem unknown_path_not_hello (req : Request) (hp : req.path ≠ "/") :
    dispatch req = notFoundResponse ∧ (dispatch req).body ≠ helloBody := by
  refine ⟨by simp [dispatch, hp], ?_⟩
  simp [dispatch, hp, notFoundResponse]
  decide

/-- Witness for C5 at `/missing`. -/
theorem unknown_path_not_hello_witness :
    dispatch ⟨.GET, "/missing", [], [], ""⟩ = notFoundResponse ∧
      (dispatch ⟨.GET, "/missing", [], [], ""⟩).body ≠ helloBody :=
  unknown_path_not_hello ⟨.GET, "/missing", [], [], ""⟩ (by decide)

/-- C6: the root handler's response is independent of headers, query
string and body: any two GET requests to `/` produce identical
responses. -/
theorem root_get_noninterference (r1 r2 : Request)
    (h1m : r1.method = .GET) (h2m : r2.method = .GET)
    (h1p : r1.path = "/") (h2p : r2.path = "/") :
    dispatch r1 = dispatch r2 := by
  simp [dispatch, h1m, h2m, h1p, h2p, hello]

/-- Witness for C6: two GET requests to `/` differing in query, headers
and body. -/
theorem root_get_noninterference_witness :
    dispatch ⟨.GET, "/", [("a", "b")], [("H", "v")], "body1"⟩ =
      dispatch ⟨.GET, "/", [("c", "d")], [("K", "w")], "body2"⟩ :=
  root_get_noninterference _ _ rfl rfl rfl rfl

/-- C7: invoking the handler never fails, always returns the fixed
string, and leaves the program state untouched; the dispatch step
likewise returns the state unchanged. -/
theorem handler_pure_total (st : ServerState) (req : Request) :
    handlerInvoke st req = .ok (helloBody, st) ∧ (serverStep st req).2 = st :=
  ⟨rfl, rfl⟩

/-- Witness for C7 at a concrete state and request. -/
theorem handler_pure_total_witness :
    handlerInvoke ⟨5000⟩ ⟨.GET, "/", [], [], ""⟩ =
        .ok (helloBody, ⟨5000⟩) ∧
      (serverStep ⟨5000⟩ ⟨.GET, "/", [], [], ""⟩).2 = ⟨5000⟩ :=
  handler_pure_total ⟨5000⟩ ⟨.GET, "/", [], [], ""⟩

/-- C8: the resolved port is the whole program state, computed once at
startup from the environment; running the server loop over any sequence
of requests leaves it unchanged. -/
theorem port_startup_invariant (env : Env) (p : Int)
    (h : resolvePort env = .ok p) (reqs : List Request) :
    startup env = .running ⟨p⟩ ∧ runServer ⟨p⟩ reqs = ⟨p⟩ := by
  exact ⟨by simp [startup, h], runServer_fixed ⟨p⟩ reqs⟩

/-- Witness for C8: default environment, two requests handled, port
still 5000. -/
theorem port_startup_invariant_witness :
    startup [] = .running ⟨5000⟩ ∧
      runServer ⟨5000⟩
        [⟨.GET, "/", [], [], ""⟩, ⟨.POST, "/missing", [], [], "x"⟩] = ⟨5000⟩ :=
  port_startup_invariant [] 5000 rfl
    [⟨.GET, "/", [], [], ""⟩, ⟨.POST, "/missing", [], [], "x"⟩]

/-- C9: the parse step is exactly Python's `int()`, so values with
surrounding whitespace, a leading sign, or outside the TCP port range
pass port resolution without the startup failure, even though `-1` and
`99999` are not usable listening ports. -/
theorem lenient_int_parse :
    resolvePort [("PORT", " 8080 ")] = .ok 8080 ∧
      resolvePort [("PORT", "-1")] = .ok (-1) ∧
      resolvePort [("PORT", "99999")] = .ok 99999 ∧
      ¬ validTcpPort (-1) ∧ ¬ validTcpPort 99999 :=
  ⟨rfl, rfl, rfl, by decide, by decide⟩

/-- C10: the route accepts Flask's default methods: HEAD on `/` answers
200 with an empty body, OPTIONS is accepted (not the 405 default), and
every other non-GET method on `/` gets the method-not-allowed
default. -/
theorem root_method_defaults (req : Request) (hp : req.path = "/") :
    (req.method = .HEAD →
        (dispatch req).status = 200 ∧ (dispatch req).body = "") ∧
      (req.method = .OPTIONS → (dispatch req).status ≠ 405) ∧
      (req.method ≠ .GET → req.method ≠ .HEAD → req.method ≠ .OPTIONS →
        dispatch req = methodNotAllowedResponse) := by
  refine ⟨fun hm => ?_, fun hm => ?_, fun hg hh ho => ?_⟩
  · simp [dispatch, hp, hm]
  · simp [dispatch, hp, hm]
  · cases hreq : req.method <;>
      simp_all [dispatch, hp]

/-- Witness for C10: HEAD gets 200/empty, OPTIONS is not 405, POST gets
the 405 default. -/
theorem root_method_defaults_witness :
    ((dispatch ⟨.HEAD, "/", [], [], ""⟩).status = 200 ∧
        (dispatch ⟨.HEAD, "/", [], [], ""⟩).body = "") ∧
      (dispatch ⟨.OPTIONS, "/", [], [], ""⟩).status ≠ 405 ∧
      dispatch ⟨.POST, "/", [], [], ""⟩ = methodNotAllowedResponse :=
  ⟨(root_method_defaults ⟨.HEAD, "/", [], [], ""⟩ rfl).1 rfl,
    (root_method_defaults ⟨.OPTIONS, "/", [], [], ""⟩ rfl).2.1 rfl,
    (root_method_defaults ⟨.POST, "/", [], [], ""⟩ rfl).2.2
      (by decide) (by decide) (by decide)⟩

end App
